import Mathlib

/-!
Shallow embedding of the EndNote-XML to BibTeX conversion engine
(class XML in xml_converter.py) together with proofs about its behaviour.

The XML tree is modelled by the inductive type Element, mirroring the
parts of xml.etree.ElementTree.Element that the converter uses: tag,
attributes, direct text and the child list.  ElementTree path searches
of the forms .//a, .//a/b and .//a/b/c are modelled by findAllDesc,
findAllDesc2 and findAllDesc3 (descendants of the root, the root itself
excluded, in document order; then children by tag), with find being the
head of findall.  Exceptions that Python could raise while walking a
record tree are modelled by oracle parameters (an exception cannot arise
in the pure embedding, so the oracles stand for the except branches in
convert_to_bibtex and _extract_fields_from_xml).  print calls are not
modelled: they never affect the returned text or the error list.
-/

/-- An XML element as used by the converter: tag, attribute list,
direct text (None or a string, as in ElementTree) and children. -/
inductive Element : Type where
  | mk (tag : String) (attrib : List (String × String)) (text : Option String)
       (children : List Element)

def Element.tag : Element → String
  | .mk t _ _ _ => t

def Element.attrib : Element → List (String × String)
  | .mk _ a _ _ => a

def Element.text : Element → Option String
  | .mk _ _ tx _ => tx

def Element.children : Element → List Element
  | .mk _ _ _ cs => cs

mutual

/-- All proper descendants of an element in document (pre-)order;
the element itself is excluded, as in ElementTree's descendant axis. -/
def descendants : Element → List Element
  | .mk _ _ _ cs => descendantsList cs

/-- Descendant closure of a list of sibling elements, document order. -/
def descendantsList : List Element → List Element
  | [] => []
  | c :: cs => c :: (descendants c ++ descendantsList cs)

end

/-- Children of an element having a given tag, in order. -/
def childrenWithTag (e : Element) (t : String) : List Element :=
  e.children.filter (fun c => c.tag == t)

/-- ElementTree findall for a path .//t . -/
def findAllDesc (e : Element) (t : String) : List Element :=
  (descendants e).filter (fun c => c.tag == t)

/-- ElementTree findall for a path .//t1/t2 . -/
def findAllDesc2 (e : Element) (t1 t2 : String) : List Element :=
  (findAllDesc e t1).flatMap (fun a => childrenWithTag a t2)

/-- ElementTree findall for a path .//t1/t2/t3 . -/
def findAllDesc3 (e : Element) (t1 t2 t3 : String) : List Element :=
  (findAllDesc2 e t1 t2).flatMap (fun a => childrenWithTag a t3)

/-- ElementTree find for a path .//t : first match or none. -/
def findDesc (e : Element) (t : String) : Option Element :=
  (findAllDesc e t).head?

/-- ElementTree find for a path .//t1/t2 . -/
def findDesc2 (e : Element) (t1 t2 : String) : Option Element :=
  (findAllDesc2 e t1 t2).head?

/-- ElementTree find for a path .//t1/t2/t3 . -/
def findDesc3 (e : Element) (t1 t2 t3 : String) : Option Element :=
  (findAllDesc3 e t1 t2 t3).head?

/-- Attribute lookup, element.attrib.get(k) . -/
def getAttr (e : Element) (k : String) : Option String :=
  (e.attrib.find? (fun p => p.1 == k)).map (fun p => p.2)

/-- Python str.strip whitespace class (ASCII part). -/
def isPySpace (c : Char) : Bool :=
  c == ' ' || c == '\t' || c == '\n' || c == '\r' || c == '\x0b' || c == '\x0c'

/-- Python str.strip(): remove leading and trailing whitespace. -/
def pyStrip (s : String) : String :=
  ⟨((s.data.dropWhile isPySpace).reverse.dropWhile isPySpace).reverse⟩

/-- XML._extract_text_from_styled_element: when the styled-text flag is
set and the element has style descendants, concatenate their texts in
document order; otherwise return the element's own direct text ("" when
the text is None). -/
def extract_text_from_styled_element (extract_styled_text : Bool) (element : Element) : String :=
  if extract_styled_text && !(findAllDesc element ("style")).isEmpty then
    String.join ((findAllDesc element ("style")).map (fun style => style.text.getD ("")))
  else
    element.text.getD ("")

/-- One single-value field step of XML._extract_fields_from_xml:
if the element was found and its extracted text is non-empty (Python
truthiness), store the stripped text under the given name. -/
def addField (flag : Bool) (fields : List (String × String)) (name : String)
    (eOpt : Option Element) : List (String × String) :=
  match eOpt with
  | none => fields
  | some e =>
    let t := extract_text_from_styled_element flag e
    if t == "" then fields else fields ++ [(name, pyStrip t)]

/-- The authors block of XML._extract_fields_from_xml. -/
def processAuthors (flag : Bool) (record : Element) (fields : List (String × String)) :
    List (String × String) :=
  match findDesc2 record ("contributors") ("authors") with
  | none => fields
  | some authorsElem =>
    let author_names := (findAllDesc authorsElem ("author")).foldl
      (fun acc author =>
        let t := extract_text_from_styled_element flag author
        if t == "" then acc else acc ++ [pyStrip t]) []
    if author_names.isEmpty then fields
    else fields ++ [("author", String.intercalate (" and ") author_names)]

/-- The journal/booktitle block of XML._extract_fields_from_xml
(lines 149-160 of xml_converter.py). -/
def processSecondaryTitle (flag : Bool) (record : Element) (fields : List (String × String)) :
    List (String × String) :=
  match findDesc2 record ("titles") ("secondary-title") with
  | none => fields
  | some secondary_title =>
    let secondary_text := extract_text_from_styled_element flag secondary_title
    if secondary_text == "" then fields
    else
      match findDesc record ("ref-type") with
      | none => fields
      | some ref_type_elem =>
        match getAttr ref_type_elem ("name") with
        | none => fields
        | some nm =>
          if nm == "Journal Article" then fields ++ [("journal", pyStrip secondary_text)]
          else fields ++ [("booktitle", pyStrip secondary_text)]

/-- The keywords block of XML._extract_fields_from_xml. -/
def processKeywords (flag : Bool) (record : Element) (fields : List (String × String)) :
    List (String × String) :=
  let keywords_elems := findAllDesc2 record ("keywords") ("keyword")
  if keywords_elems.isEmpty then fields
  else
    let keywords := keywords_elems.foldl
      (fun acc kw =>
        let t := extract_text_from_styled_element flag kw
        if t == "" then acc else acc ++ [pyStrip t]) []
    if keywords.isEmpty then fields
    else fields ++ [("keywords", String.intercalate (", ") keywords)]

/-- The body of XML._extract_fields_from_xml (the try part): build the
field dictionary of a record, in the insertion order of the source. -/
def extract_fields_pure (flag : Bool) (record : Element) : List (String × String) :=
  let fields := addField flag [] ("title") (findDesc2 record ("titles") ("title"))
  let fields := processAuthors flag record fields
  let fields := addField flag fields ("year") (findDesc2 record ("dates") ("year"))
  let fields := processSecondaryTitle flag record fields
  let fields := addField flag fields ("volume") (findDesc record ("volume"))
  let fields := addField flag fields ("number") (findDesc record ("number"))
  let fields := addField flag fields ("pages") (findDesc record ("pages"))
  let fields := addField flag fields ("publisher") (findDesc record ("publisher"))
  let fields := addField flag fields ("url") (findDesc3 record ("urls") ("related-urls") ("url"))
  let fields := addField flag fields ("doi") (findDesc record ("electronic-resource-num"))
  let fields := addField flag fields ("abstract") (findDesc record ("abstract"))
  let fields := processKeywords flag record fields
  let fields := addField flag fields ("isbn") (findDesc record ("isbn"))
  let fields := [("edition" : String), "address", "note", "month", "series", "chapter"].foldl
    (fun fs tag => addField flag fs tag (findDesc record tag)) fields
  fields

/-- XML._extract_fields_from_xml with its except branch.  The oracle
models an unexpected exception raised while walking the record tree
(impossible in the pure embedding): on failure the function appends one
error and returns the empty dictionary, as the source does. -/
def extract_fields_from_xml (flag : Bool) (extractOracle : Element → Option String)
    (errs : List String) (record : Element) : List (String × String) × List String :=
  match extractOracle record with
  | some msg => ([], errs ++ ["Error extracting fields: " ++ msg])
  | none => (extract_fields_pure flag record, errs)

/-- XML.entry_type_map from __init__. -/
def entry_type_map : List (String × String) :=
  [("Journal Article", "article"),
   ("Book", "book"),
   ("Book Section", "incollection"),
   ("Conference Paper", "inproceedings"),
   ("Conference Proceedings", "proceedings"),
   ("Conference Proceeding", "proceedings"),
   ("Thesis", "phdthesis"),
   ("Report", "techreport"),
   ("Web Page", "online"),
   ("Patent", "patent"),
   ("Unpublished Work", "unpublished"),
   ("Manuscript", "unpublished"),
   ("Magazine Article", "article"),
   ("Newspaper Article", "article"),
   ("Electronic Article", "article"),
   ("Generic", "misc")]

/-- Python dict.get(k, d) over an association list with unique keys. -/
def dictGetD (m : List (String × String)) (k d : String) : String :=
  ((m.find? (fun p => p.1 == k)).map (fun p => p.2)).getD d

/-- The required-field table of XML._get_required_fields. -/
def required_fields_table : List (String × List String) :=
  [("article", ["author", "title", "journal", "year"]),
   ("book", ["author", "title", "publisher", "year"]),
   ("inbook", ["author", "title", "publisher", "year"]),
   ("incollection", ["author", "title", "booktitle", "publisher", "year"]),
   ("inproceedings", ["author", "title", "booktitle", "year"]),
   ("proceedings", ["title", "year"]),
   ("phdthesis", ["author", "title", "school", "year"]),
   ("mastersthesis", ["author", "title", "school", "year"]),
   ("techreport", ["author", "title", "institution", "year"]),
   ("online", ["title", "url"]),
   ("misc", ["title"]),
   ("patent", ["author", "title", "number", "year"]),
   ("unpublished", ["author", "title", "note"])]

/-- XML._get_required_fields. -/
def get_required_fields (entry_type : String) : List String :=
  ((required_fields_table.find? (fun p => p.1 == entry_type)).map (fun p => p.2)).getD []

/-- fields.get(field) over the insertion-ordered field list. -/
def fieldsGet (fields : List (String × String)) (k : String) : Option String :=
  (fields.find? (fun p => p.1 == k)).map (fun p => p.2)

/-- The f-string body of a field line in XML._format_fields. -/
def fieldLine (field value : String) : String :=
  "\n\t" ++ field ++ " = \x7b" ++ value ++ "\x7d,"

/-- One iteration of the required-field loop in XML._format_fields:
the accumulator holds the formatted text and the missing-field list. -/
def requiredStep (fields : List (String × String)) (acc : String × List String)
    (field : String) : String × List String :=
  match fieldsGet fields field with
  | some v => (acc.1 ++ fieldLine field v, acc.2)
  | none => (acc.1, acc.2 ++ [field])

/-- One iteration of the flexible-field loop in XML._format_fields. -/
def flexStep (required_fields : List String) (acc : String) (p : String × String) : String :=
  if required_fields.contains p.1 then acc
  else acc ++ fieldLine p.1 p.2

/-- XML._format_fields: required fields first, in table order, then
the remaining fields in insertion order.  Returns the formatted text
and the missing required fields (the latter is only printed by the
source when warnings are not suppressed). -/
def formatFields (fields : List (String × String)) (required_fields : List String) :
    String × List String :=
  let step1 := required_fields.foldl (requiredStep fields) ("", [])
  (fields.foldl (flexStep required_fields) step1.1, step1.2)

/-- The reference-type label resolution in convert_to_bibtex
(lines 64-69): name attribute of a ref-type element, else the record's
ref-type attribute, else "Generic". -/
def resolveTypeName (record : Element) : String :=
  match findDesc record ("ref-type") with
  | some ref_type_elem =>
    match getAttr ref_type_elem ("name") with
    | some nm => nm
    | none => (getAttr record ("ref-type")).getD ("Generic")
  | none => (getAttr record ("ref-type")).getD ("Generic")

/-- The entry-key computation in convert_to_bibtex (lines 74-76):
the rec-number text when present and truthy, else ref(n+1) where n is
the number of entries built so far. -/
def entryKeyFor (record : Element) (numEntries : Nat) : String :=
  match findDesc record ("rec-number") with
  | some key_elem =>
    match key_elem.text with
    | some t => if t == "" then "ref" ++ toString (numEntries + 1) else t
    | none => "ref" ++ toString (numEntries + 1)
  | none => "ref" ++ toString (numEntries + 1)

/-- Assembly of one BibTeX entry string in convert_to_bibtex. -/
def renderEntry (entry_type entry_key body : String) : String :=
  "@" ++ (entry_type ++ ("\x7b" ++ (entry_key ++ (body ++ "\n\x7d"))))

/-- The loop body of convert_to_bibtex for one (index, record) pair.
recordOracle models the except branch of the per-record try (an
exception raised outside _extract_fields_from_xml): the record then
contributes no entry and one error, and processing continues. -/
def processOne (flag : Bool) (extractOracle : Element → Option String)
    (recordOracle : Nat → Element → Option String)
    (st : List String × List String) (idxRecord : Nat × Element) :
    List String × List String :=
  match recordOracle idxRecord.1 idxRecord.2 with
  | some msg =>
    (st.1, st.2 ++ ["Error processing record " ++ toString (idxRecord.1 + 1) ++ ": " ++ msg])
  | none =>
    let record := idxRecord.2
    let entry_type := dictGetD entry_type_map (resolveTypeName record) ("misc")
    let entry_key := entryKeyFor record st.1.length
    let fe := extract_fields_from_xml flag extractOracle st.2 record
    let formatted := formatFields fe.1 (get_required_fields entry_type)
    (st.1 ++ [renderEntry entry_type entry_key formatted.1], fe.2)

/-- The record loop of convert_to_bibtex (for index, record in
enumerate(records)). -/
def processList (flag : Bool) (extractOracle : Element → Option String)
    (recordOracle : Nat → Element → Option String) :
    Nat → (List String × List String) → List Element → List String × List String
  | _, st, [] => st
  | i, st, r :: rs =>
    processList flag extractOracle recordOracle (i + 1)
      (processOne flag extractOracle recordOracle st (i, r)) rs

/-- The two-path record search of convert_to_bibtex (lines 52-57):
use .//records/record when it matches, else .//record . -/
def locateRecords (root : Element) : List Element :=
  if !(findAllDesc2 root ("records") ("record")).isEmpty then
    findAllDesc2 root ("records") ("record")
  else
    findAllDesc root ("record")

/-- convert_to_bibtex from the point where the root element is known. -/
def convertRoot (flag : Bool) (extractOracle : Element → Option String)
    (recordOracle : Nat → Element → Option String) (root : Element) :
    String × List String :=
  let records := locateRecords root
  if records.isEmpty then ("", ["No records found in XML data"])
  else
    let st := processList flag extractOracle recordOracle 0 ([], []) records
    if st.1.isEmpty && !st.2.isEmpty then ("", st.2)
    else (String.intercalate ("\n\n") st.1, st.2)

/-- The three runtime shapes of the xml_data argument: a string, an
already-parsed element, or anything else. -/
inductive XmlData : Type where
  | str (s : String)
  | elem (e : Element)
  | invalid

/-- XML.convert_to_bibtex.  The parse parameter stands for the external
xml.etree.ElementTree.fromstring: an error result models an
ET.ParseError with the parser's message.  The returned pair is the
BibTeX text and the conversion_errors list (reset on entry). -/
def convert_to_bibtex (parse : String → Except String Element) (flag : Bool)
    (extractOracle : Element → Option String)
    (recordOracle : Nat → Element → Option String)
    (xml_data : XmlData) : String × List String :=
  match xml_data with
  | .str s =>
    match parse s with
    | .error msg => ("", ["Error parsing XML: " ++ msg])
    | .ok root => convertRoot flag extractOracle recordOracle root
  | .elem root => convertRoot flag extractOracle recordOracle root
  | .invalid => ("", ["Invalid XML data type"])

/-! Specification-side definitions used to state the claims. -/

/-- Concatenation of a list of strings (used by the specification-side
formatter). -/
def strConcat : List String → String
  | [] => ""
  | s :: rest => s ++ strConcat rest

/-- The entry body as the specification describes it: for each field in
the required list, in that order, a field line when the field is
present; then a field line for every FieldSet field not in the required
list, in insertion order.  No line for an absent required field. -/
def specFormat (fields : List (String × String)) (required : List String) : String :=
  strConcat (required.filterMap (fun f => (fieldsGet fields f).map (fun v => fieldLine f v))) ++
  strConcat ((fields.filter (fun p => !(required.contains p.1))).map (fun p => fieldLine p.1 p.2))

/-- Number of records, starting at a given index, whose processing does
not raise a record-level exception. -/
def countNoRecordError (recordOracle : Nat → Element → Option String) :
    Nat → List Element → Nat
  | _, [] => 0
  | i, r :: rs =>
    (if (recordOracle i r).isNone then 1 else 0) + countNoRecordError recordOracle (i + 1) rs

/-- Number of errors the record loop accumulates: one per record whose
processing raises, and one per surviving record whose field extraction
raises. -/
def countRecordErrors (extractOracle : Element → Option String)
    (recordOracle : Nat → Element → Option String) : Nat → List Element → Nat
  | _, [] => 0
  | i, r :: rs =>
    (if (recordOracle i r).isSome || (extractOracle r).isSome then 1 else 0)
      + countRecordErrors extractOracle recordOracle (i + 1) rs

/-- Number of records whose field-extraction pass does not raise
(the count the original claim compares the entry count with). -/
def countNoExtractError (extractOracle : Element → Option String) (rs : List Element) : Nat :=
  rs.countP (fun r => (extractOracle r).isNone)

/-! Concrete elements used in counterexamples and witnesses. -/

/-- A document with one record, used to exercise the extraction-error
path. -/
def c1Root : Element := .mk ("records") [] none [.mk ("record") [] none []]

/-- A secondary-title element with plain text X. -/
def c2SecElem : Element := .mk ("secondary-title") [] (some ("X")) []

/-- A record with a secondary title but no ref-type element and no
ref-type attribute: its label resolves to the Generic default. -/
def c2Record : Element := .mk ("record") [] none [.mk ("titles") [] none [c2SecElem]]

/-- A record whose title text is a single space (whitespace-only). -/
def c3Record : Element :=
  .mk ("record") [] none [.mk ("titles") [] none [.mk ("title") [] (some (" ")) []]]

/-- A title element carrying whitespace-only text. -/
def c3TitleElem : Element := .mk ("title") [] (some (" ")) []

/-- A field element whose value is split over two style children. -/
def c4Styled : Element :=
  .mk ("title") [] none
    [.mk ("style") [] (some ("Hello ")) [], .mk ("style") [] (some ("World")) []]

/-- A field element carrying the same value as direct text. -/
def c4Direct : Element := .mk ("title") [] (some ("Hello World")) []

/-- A record with no rec-number element at all. -/
def c5Record : Element := .mk ("record") [] none []

/-- A record whose reference-type label is not in the lookup table. -/
def c7Record : Element :=
  .mk ("record") [] none [.mk ("ref-type") [("name", "Nonexistent Type")] none []]

/-- A rec-number element with surrounding whitespace in its text. -/
def c9KeyElem : Element := .mk ("rec-number") [] (some ("  42  ")) []

/-- A record whose rec-number text has surrounding whitespace. -/
def c9Record : Element := .mk ("record") [] none [c9KeyElem]

/-- A rec-number element whose text is the empty string. -/
def c9EmptyKeyElem : Element := .mk ("rec-number") [] (some ("")) []

/-- A record whose rec-number element is present but has empty text. -/
def c9RecordEmpty : Element := .mk ("record") [] none [c9EmptyKeyElem]

/-- A full journal-article record used as a formatting witness. -/
def jaRecord : Element :=
  .mk ("record") [] none
    [.mk ("ref-type") [("name", "Journal Article")] none [],
     .mk ("rec-number") [] (some ("12")) [],
     .mk ("titles") [] none
       [.mk ("title") [] (some ("A Study")) [],
        .mk ("secondary-title") [] (some ("Nature")) []],
     .mk ("contributors") [] none
       [.mk ("authors") [] none
         [.mk ("author") [] (some ("Smith, J.")) [],
          .mk ("author") [] (some ("Doe, A.")) []]],
     .mk ("dates") [] none [.mk ("year") [] (some ("2020")) []]]

/-! Helper lemmas. -/

theorem str_append_assoc (a b c : String) : a ++ b ++ c = a ++ (b ++ c) := by
  apply String.ext
  simp [String.data_append, List.append_assoc]

theorem processOne_some (flag : Bool) (xo : Element → Option String)
    (ro : Nat → Element → Option String) (st : List String × List String)
    (i : Nat) (r : Element) (msg : String) (h : ro i r = some msg) :
    processOne flag xo ro st (i, r)
      = (st.1, st.2 ++ ["Error processing record " ++ toString (i + 1) ++ ": " ++ msg]) := by
  simp [processOne, h]

theorem processOne_none (flag : Bool) (xo : Element → Option String)
    (ro : Nat → Element → Option String) (st : List String × List String)
    (i : Nat) (r : Element) (h : ro i r = none) :
    processOne flag xo ro st (i, r)
      = (st.1 ++ [renderEntry (dictGetD entry_type_map (resolveTypeName r) ("misc"))
            (entryKeyFor r st.1.length)
            (formatFields (extract_fields_from_xml flag xo st.2 r).1
              (get_required_fields (dictGetD entry_type_map (resolveTypeName r) ("misc")))).1],
         (extract_fields_from_xml flag xo st.2 r).2) := by
  simp [processOne, h]

theorem extract_fields_errs_length (flag : Bool) (xo : Element → Option String)
    (errs : List String) (r : Element) :
    (extract_fields_from_xml flag xo errs r).2.length
      = errs.length + (if (xo r).isSome then 1 else 0) := by
  unfold extract_fields_from_xml
  cases xo r <;> simp

theorem foldl_requiredStep (fields : List (String × String)) :
    ∀ (required : List String) (s : String) (m : List String),
    (required.foldl (requiredStep fields) (s, m)).1
      = s ++ strConcat (required.filterMap (fun f => (fieldsGet fields f).map (fun v => fieldLine f v))) := by
  intro required
  induction required with
  | nil => intro s m; simp [strConcat, String.append_empty]
  | cons f fs ih =>
    intro s m
    simp only [List.foldl_cons, List.filterMap_cons]
    cases h : fieldsGet fields f with
    | none => simp [requiredStep, h, ih]
    | some v => simp [requiredStep, h, ih, strConcat, str_append_assoc]

theorem foldl_flexStep (required : List String) :
    ∀ (l : List (String × String)) (s : String),
    l.foldl (flexStep required) s
      = s ++ strConcat ((l.filter (fun p => !(required.contains p.1))).map (fun p => fieldLine p.1 p.2)) := by
  intro l
  induction l with
  | nil => intro s; simp [strConcat, String.append_empty]
  | cons p ps ih =>
    intro s
    simp only [List.foldl_cons, List.filter_cons]
    cases h : required.contains p.1 with
    | true =>
      have hm : p.1 ∈ required := by simpa using h
      simp [flexStep, hm, ih]
    | false =>
      have hm : p.1 ∉ required := by simpa using h
      simp [flexStep, hm, ih, strConcat, str_append_assoc]

theorem processList_spec (flag : Bool) (xo : Element → Option String)
    (ro : Nat → Element → Option String) :
    ∀ (rs : List Element) (i : Nat) (entries errs : List String),
    (processList flag xo ro i (entries, errs) rs).1.length
        = entries.length + countNoRecordError ro i rs ∧
    (processList flag xo ro i (entries, errs) rs).2.length
        = errs.length + countRecordErrors xo ro i rs ∧
    ∀ e ∈ (processList flag xo ro i (entries, errs) rs).1,
      e ∈ entries ∨ ∃ t k b, e = renderEntry t k b := by
  intro rs
  induction rs with
  | nil =>
    intro i entries errs
    refine ⟨by simp [processList, countNoRecordError], by simp [processList, countRecordErrors], ?_⟩
    intro e he
    exact Or.inl (by simpa [processList] using he)
  | cons r rest ih =>
    intro i entries errs
    simp only [processList, countNoRecordError, countRecordErrors]
    cases hro : ro i r with
    | some msg =>
      rw [processOne_some flag xo ro (entries, errs) i r msg hro]
      obtain ⟨h1, h2, h3⟩ := ih (i + 1) entries
        (errs ++ ["Error processing record " ++ toString (i + 1) ++ ": " ++ msg])
      refine ⟨?_, ?_, ?_⟩
      · rw [h1]; simp [hro]
      · rw [h2]; simp [hro]; omega
      · intro e he
        exact h3 e he
    | none =>
      rw [processOne_none flag xo ro (entries, errs) i r hro]
      obtain ⟨h1, h2, h3⟩ := ih (i + 1)
        (entries ++ [renderEntry (dictGetD entry_type_map (resolveTypeName r) ("misc"))
            (entryKeyFor r entries.length)
            (formatFields (extract_fields_from_xml flag xo errs r).1
              (get_required_fields (dictGetD entry_type_map (resolveTypeName r) ("misc")))).1])
        ((extract_fields_from_xml flag xo errs r).2)
      refine ⟨?_, ?_, ?_⟩
      · rw [h1]; simp [hro]; omega
      · rw [h2, extract_fields_errs_length]; simp [hro]; omega
      · intro e he
        rcases h3 e he with hmem | hr
        · rcases List.mem_append.mp hmem with hmem2 | hmem2
          · exact Or.inl hmem2
          · refine Or.inr ?_
            rcases List.mem_singleton.mp hmem2 with rfl
            exact ⟨_, _, _, rfl⟩
        · exact Or.inr hr

/-! Claim theorems. -/

/-- Claim C1, counterexample to the claim as stated: for a document with
one record whose field-extraction pass raises a structural error, the
conversion output is non-empty and contains one entry header, while the
number of records that did not raise a RecordExtractionError is zero --
so the record contributed an entry, not zero entries, and the claimed
entry-count equality fails. -/
theorem c1_counterexample :
    ((convertRoot true (fun _ => some ("boom")) (fun _ _ => none) c1Root).1 ≠ "") ∧
    (((convertRoot true (fun _ => some ("boom")) (fun _ _ => none) c1Root).1.data.filter
        (fun c => c == '@')).length = 1) ∧
    (countNoExtractError (fun _ => some ("boom")) (locateRecords c1Root) = 0) ∧
    ((convertRoot true (fun _ => some ("boom")) (fun _ _ => none) c1Root).2.length = 1) := by
  decide

/-- Claim C1 (amended): a record whose field-extraction pass hits a
structural error still contributes exactly one entry (with an empty
FieldSet) and exactly one error, and processing continues; the number
of @-headed entries produced by the record loop equals the number of
records that did not raise a record-level processing error (extraction
errors do not reduce the entry count), and the error count is one per
failing record. -/
theorem c1_entry_and_error_counts (flag : Bool) (xo : Element → Option String)
    (ro : Nat → Element → Option String) (root : Element) :
    ((processList flag xo ro 0 ([], []) (locateRecords root)).1.length
        = countNoRecordError ro 0 (locateRecords root)) ∧
    ((processList flag xo ro 0 ([], []) (locateRecords root)).2.length
        = countRecordErrors xo ro 0 (locateRecords root)) ∧
    (∀ e ∈ (processList flag xo ro 0 ([], []) (locateRecords root)).1,
        ∃ t k b, e = renderEntry t k b) := by
  obtain ⟨h1, h2, h3⟩ := processList_spec flag xo ro (locateRecords root) 0 [] []
  refine ⟨by simpa using h1, by simpa using h2, ?_⟩
  intro e he
  rcases h3 e he with hmem | hr
  · simp at hmem
  · exact hr

/-- Witness for C1 at a concrete input: the counts agree on c1Root with
a failing extraction oracle, and the single produced entry is a rendered
@-headed entry. -/
theorem c1_entry_and_error_counts_witness :
    ((processList true (fun _ => some ("boom")) (fun _ _ => none) 0 ([], [])
        (locateRecords c1Root)).1.length
      = countNoRecordError (fun _ _ => none) 0 (locateRecords c1Root)) ∧
    (∃ t k b, ("@misc\x7bref1\n\x7d" : String) = renderEntry t k b) := by
  have h := c1_entry_and_error_counts true (fun _ => some ("boom")) (fun _ _ => none) c1Root
  exact ⟨h.1, h.2.2 ("@misc\x7bref1\n\x7d") (by decide)⟩

/-- Claim C2, counterexample to the claim as stated: a record with a
non-empty secondary title whose reference-type label resolves to the
Generic default gets neither a journal nor a booktitle field, although
the claim says the value is assigned to booktitle for any non-journal
label. -/
theorem c2_counterexample :
    (resolveTypeName c2Record = "Generic") ∧
    (findDesc2 c2Record ("titles") ("secondary-title") = some c2SecElem) ∧
    (extract_text_from_styled_element true c2SecElem = "X") ∧
    (fieldsGet (extract_fields_pure true c2Record) ("booktitle") = none) ∧
    (fieldsGet (extract_fields_pure true c2Record) ("journal") = none) := by
  refine ⟨by decide, rfl, by decide, by decide, by decide⟩

/-- Claim C2 (amended): a non-empty secondary-title value is assigned
to journal when a ref-type element with a name attribute exists and
that attribute is exactly Journal Article; it is assigned to booktitle
when such an attribute exists with any other value; and it is assigned
to neither field when no ref-type element with a name attribute is
present (in particular when the label would be resolved from the
record's ref-type attribute or the Generic default). -/
theorem c2_venue_routing (flag : Bool) (r : Element) (fields : List (String × String))
    (st : Element) (hst : findDesc2 r ("titles") ("secondary-title") = some st)
    (ht : extract_text_from_styled_element flag st ≠ "") :
    (((findDesc r ("ref-type")).bind (fun e => getAttr e ("name")) = some ("Journal Article")) →
        processSecondaryTitle flag r fields
          = fields ++ [("journal", pyStrip (extract_text_from_styled_element flag st))]) ∧
    (∀ nm, ((findDesc r ("ref-type")).bind (fun e => getAttr e ("name")) = some nm) →
        nm ≠ "Journal Article" →
        processSecondaryTitle flag r fields
          = fields ++ [("booktitle", pyStrip (extract_text_from_styled_element flag st))]) ∧
    (((findDesc r ("ref-type")).bind (fun e => getAttr e ("name")) = none) →
        processSecondaryTitle flag r fields = fields) := by
  refine ⟨?_, ?_, ?_⟩
  · intro hja
    cases hrt : findDesc r ("ref-type") with
    | none => rw [hrt] at hja; simp at hja
    | some rte =>
      rw [hrt] at hja
      simp only [Option.some_bind] at hja
      simp [processSecondaryTitle, hst, ht, hrt, hja]
  · intro nm hnm hne
    cases hrt : findDesc r ("ref-type") with
    | none => rw [hrt] at hnm; simp at hnm
    | some rte =>
      rw [hrt] at hnm
      simp only [Option.some_bind] at hnm
      simp [processSecondaryTitle, hst, ht, hrt, hnm, hne]
  · intro hno
    cases hrt : findDesc r ("ref-type") with
    | none => simp [processSecondaryTitle, hst, ht, hrt]
    | some rte =>
      rw [hrt] at hno
      simp only [Option.some_bind] at hno
      simp [processSecondaryTitle, hst, ht, hrt, hno]

/-- Witness for C2 at a concrete input: for the journal-article record,
the secondary title Nature is routed to the journal field. -/
theorem c2_venue_routing_witness :
    processSecondaryTitle true jaRecord []
      = [("journal", pyStrip (extract_text_from_styled_element true
          (Element.mk ("secondary-title") [] (some ("Nature")) [])))] := by
  have h := (c2_venue_routing true jaRecord []
      (Element.mk ("secondary-title") [] (some ("Nature")) []) rfl (by decide)).1 rfl
  simpa using h

/-- Claim C3, counterexample to the claim as stated: a record whose
title text is a single space (whitespace-only, non-empty) produces a
title field mapped to the empty string, although the claim says a
whitespace-only result never yields a field. -/
theorem c3_counterexample :
    fieldsGet (extract_fields_pure true c3Record) ("title") = some ("") := by
  decide

/-- Claim C3 (amended): an extraction result that is absent or is the
empty string produces no entry for the field; a result that is
non-empty but consists only of whitespace does produce the field,
mapped to the stripped value (the empty string). -/
theorem c3_field_presence (flag : Bool) (fields : List (String × String)) (name : String) :
    (addField flag fields name none = fields) ∧
    (∀ e : Element, extract_text_from_styled_element flag e = "" →
        addField flag fields name (some e) = fields) ∧
    (∀ e : Element, extract_text_from_styled_element flag e ≠ "" →
        addField flag fields name (some e)
          = fields ++ [(name, pyStrip (extract_text_from_styled_element flag e))]) := by
  refine ⟨rfl, ?_, ?_⟩
  · intro e he
    simp [addField, he]
  · intro e he
    simp [addField, he]

/-- Witness for C3 at a concrete input: the whitespace-only title
element yields a title field holding the empty string. -/
theorem c3_field_presence_witness :
    addField true [] ("title") (some c3TitleElem) = [("title", "")] := by
  have h := (c3_field_presence true [] ("title")).2.2 c3TitleElem (by decide)
  simpa using h

/-- Claim C4 (confirmed): with the styled-text flag enabled, a field
element whose value is split over style sub-elements and a field
element carrying the same value as direct text produce the same
extracted text, hence the same FieldSet value; with the flag disabled,
style sub-elements are ignored and the element's own direct text is
used. -/
theorem c4_styled_text_equivalence :
    (∀ e1 e2 : Element,
        (findAllDesc e1 ("style")).isEmpty = false →
        (findAllDesc e2 ("style")).isEmpty = true →
        String.join ((findAllDesc e1 ("style")).map (fun st => st.text.getD (""))) = e2.text.getD ("") →
        extract_text_from_styled_element true e1 = extract_text_from_styled_element true e2) ∧
    (∀ (fields : List (String × String)) (name : String) (e1 e2 : Element),
        (findAllDesc e1 ("style")).isEmpty = false →
        (findAllDesc e2 ("style")).isEmpty = true →
        String.join ((findAllDesc e1 ("style")).map (fun st => st.text.getD (""))) = e2.text.getD ("") →
        addField true fields name (some e1) = addField true fields name (some e2)) ∧
    (∀ e : Element, extract_text_from_styled_element false e = e.text.getD ("")) := by
  have hext : ∀ e1 e2 : Element,
      (findAllDesc e1 ("style")).isEmpty = false →
      (findAllDesc e2 ("style")).isEmpty = true →
      String.join ((findAllDesc e1 ("style")).map (fun st => st.text.getD (""))) = e2.text.getD ("") →
      extract_text_from_styled_element true e1 = extract_text_from_styled_element true e2 := by
    intro e1 e2 h1 h2 h3
    simp [extract_text_from_styled_element, h1, h2, h3]
  refine ⟨hext, ?_, ?_⟩
  · intro fields name e1 e2 h1 h2 h3
    simp [addField, hext e1 e2 h1 h2 h3]
  · intro e
    simp [extract_text_from_styled_element]

/-- Witness for C4 at concrete inputs: two style children whose texts
concatenate to Hello World extract to the same value as direct text
Hello World, and with the flag disabled the styled element falls back
to its (absent) direct text. -/
theorem c4_styled_text_equivalence_witness :
    (extract_text_from_styled_element true c4Styled
      = extract_text_from_styled_element true c4Direct) ∧
    (addField true [] ("title") (some c4Styled) = addField true [] ("title") (some c4Direct)) ∧
    (extract_text_from_styled_element false c4Styled = "") := by
  obtain ⟨h1, h2, h3⟩ := c4_styled_text_equivalence
  exact ⟨h1 c4Styled c4Direct (by decide) (by decide) (by decide),
         h2 [] ("title") c4Styled c4Direct (by decide) (by decide) (by decide),
         h3 c4Styled⟩

/-- Claim C5 (confirmed): a surviving record's entry uses the key
computed by entryKeyFor from the number of entries produced so far
(not from the record's index), and when the record has no rec-number
that key is ref(n+1) for n entries produced so far -- so the first
key-less successfully produced entry gets ref1, the next ref2, and
numbering skips records that produced no entry. -/
theorem c5_key_numbering (flag : Bool) (xo : Element → Option String)
    (ro : Nat → Element → Option String) (entries errs : List String) (i : Nat) (r : Element)
    (hro : ro i r = none) :
    (∃ body, (processOne flag xo ro (entries, errs) (i, r)).1
        = entries ++ [renderEntry (dictGetD entry_type_map (resolveTypeName r) ("misc"))
            (entryKeyFor r entries.length) body]) ∧
    (findDesc r ("rec-number") = none →
        entryKeyFor r entries.length = "ref" ++ toString (entries.length + 1)) := by
  constructor
  · rw [processOne_none flag xo ro (entries, errs) i r hro]
    exact ⟨_, rfl⟩
  · intro h
    simp [entryKeyFor, h]

/-- Witness for C5 at a concrete input: a key-less record processed at
index 1 while no entry has been produced yet still gets key ref1,
showing the numbering follows the entry count, not the index. -/
theorem c5_key_numbering_witness :
    (∃ body, (processOne true (fun _ => none) (fun _ _ => none) ([], []) (1, c5Record)).1
        = [renderEntry ("misc") ("ref1") body]) ∧
    (entryKeyFor c5Record 0 = "ref" ++ toString 1) := by
  obtain ⟨⟨body, hb⟩, hk⟩ :=
    c5_key_numbering true (fun _ => none) (fun _ _ => none) [] [] 1 c5Record rfl
  exact ⟨⟨body, hb⟩, hk rfl⟩

/-- Claim C6 (confirmed): for a string input on which the parser fails,
the conversion returns the empty string and exactly one error carrying
the parser's message. -/
theorem c6_parse_error (parse : String → Except String Element) (flag : Bool)
    (xo : Element → Option String) (ro : Nat → Element → Option String)
    (s msg : String) (h : parse s = Except.error msg) :
    convert_to_bibtex parse flag xo ro (XmlData.str s)
      = ("", ["Error parsing XML: " ++ msg]) := by
  simp [convert_to_bibtex, h]

/-- Witness for C6 at a concrete input: the truncated document from the
specification with a parser that reports an unclosed token. -/
theorem c6_parse_error_witness :
    convert_to_bibtex (fun _ => Except.error ("unclosed token: line 1, column 9")) true
        (fun _ => none) (fun _ _ => none) (XmlData.str ("<records><record>"))
      = ("", ["Error parsing XML: " ++ "unclosed token: line 1, column 9"]) :=
  c6_parse_error (fun _ => Except.error ("unclosed token: line 1, column 9")) true
    (fun _ => none) (fun _ _ => none) ("<records><record>")
    ("unclosed token: line 1, column 9") rfl

/-- Claim C7 (confirmed): a surviving record whose resolved label is
not in the lookup table still produces exactly one entry, tagged misc;
and the label is resolved from the ref-type element's name attribute,
else from the record's ref-type attribute, else Generic. -/
theorem c7_unknown_label (flag : Bool) (xo : Element → Option String)
    (ro : Nat → Element → Option String) (entries errs : List String) (i : Nat) (r : Element)
    (hro : ro i r = none)
    (hlbl : entry_type_map.find? (fun p => p.1 == resolveTypeName r) = none) :
    (∃ body, (processOne flag xo ro (entries, errs) (i, r)).1
        = entries ++ [renderEntry ("misc") (entryKeyFor r entries.length) body]) ∧
    (∀ (s rt : Element) (nm : String), findDesc s ("ref-type") = some rt →
        getAttr rt ("name") = some nm → resolveTypeName s = nm) ∧
    (∀ (s rt : Element), findDesc s ("ref-type") = some rt → getAttr rt ("name") = none →
        resolveTypeName s = (getAttr s ("ref-type")).getD ("Generic")) ∧
    (∀ s : Element, findDesc s ("ref-type") = none →
        resolveTypeName s = (getAttr s ("ref-type")).getD ("Generic")) := by
  have hmisc : dictGetD entry_type_map (resolveTypeName r) ("misc") = "misc" := by
    simp [dictGetD, hlbl]
  refine ⟨?_, ?_, ?_, ?_⟩
  · rw [processOne_none flag xo ro (entries, errs) i r hro, hmisc]
    exact ⟨_, rfl⟩
  · intro s rt nm h1 h2
    simp [resolveTypeName, h1, h2]
  · intro s rt h1 h2
    simp [resolveTypeName, h1, h2]
  · intro s h1
    simp [resolveTypeName, h1]

/-- Witness for C7 at a concrete input: a record labelled Nonexistent
Type produces one @misc entry. -/
theorem c7_unknown_label_witness :
    ∃ body, (processOne true (fun _ => none) (fun _ _ => none) ([], []) (0, c7Record)).1
      = [renderEntry ("misc") (entryKeyFor c7Record 0) body] := by
  obtain ⟨⟨body, hb⟩, -, -, -⟩ :=
    c7_unknown_label true (fun _ => none) (fun _ _ => none) [] [] 0 c7Record rfl (by decide)
  exact ⟨body, hb⟩

/-- Claim C8 (confirmed): the formatter's output is exactly the
specification-side text: for each field in the entry type's required
list, in that fixed order, a field line when the field is present (no
line when it is absent -- absence only joins the diagnostic list), then
a field line for every FieldSet field not in the required list, in
insertion order; and a surviving record's emitted entry is exactly the
@type header, the key, that body and the closing brace line. -/
theorem c8_entry_format :
    (∀ (fields : List (String × String)) (required : List String),
        (formatFields fields required).1 = specFormat fields required) ∧
    (∀ (flag : Bool) (xo : Element → Option String) (ro : Nat → Element → Option String)
        (entries errs : List String) (i : Nat) (r : Element), ro i r = none →
        (processOne flag xo ro (entries, errs) (i, r)).1
          = entries ++ [renderEntry (dictGetD entry_type_map (resolveTypeName r) ("misc"))
              (entryKeyFor r entries.length)
              (specFormat (extract_fields_from_xml flag xo errs r).1
                (get_required_fields (dictGetD entry_type_map (resolveTypeName r) ("misc"))))]) := by
  have hfmt : ∀ (fields : List (String × String)) (required : List String),
      (formatFields fields required).1 = specFormat fields required := by
    intro fields required
    simp only [formatFields]
    rw [foldl_flexStep, foldl_requiredStep]
    simp [specFormat, str_append_assoc]
  refine ⟨hfmt, ?_⟩
  intro flag xo ro entries errs i r hro
  rw [processOne_none flag xo ro (entries, errs) i r hro, hfmt]

/-- Witness for C8 at a concrete input: the full journal-article record
renders with the required fields author, title, journal, year in table
order. -/
theorem c8_entry_format_witness :
    (processOne true (fun _ => none) (fun _ _ => none) ([], []) (0, jaRecord)).1
      = [renderEntry ("article") ("12")
          (specFormat (extract_fields_from_xml true (fun _ => none) [] jaRecord).1
            (get_required_fields ("article")))] := by
  have h := c8_entry_format.2 true (fun _ => none) (fun _ _ => none) [] [] 0 jaRecord rfl
  exact h

/-- Claim C9 (confirmed): a rec-number element that is absent, has no
text, or has empty text all make the entry key fall back to ref(n+1);
a non-empty rec-number text is used verbatim as the key, with no
whitespace trimming and no numeric validation. -/
theorem c9_recnumber_key (r : Element) (n : Nat) :
    (findDesc r ("rec-number") = none → entryKeyFor r n = "ref" ++ toString (n + 1)) ∧
    (∀ ke : Element, findDesc r ("rec-number") = some ke → ke.text = none →
        entryKeyFor r n = "ref" ++ toString (n + 1)) ∧
    (∀ ke : Element, findDesc r ("rec-number") = some ke → ke.text = some ("") →
        entryKeyFor r n = "ref" ++ toString (n + 1)) ∧
    (∀ (ke : Element) (t : String), findDesc r ("rec-number") = some ke → ke.text = some t →
        t ≠ "" → entryKeyFor r n = t) := by
  refine ⟨?_, ?_, ?_, ?_⟩
  · intro h
    simp [entryKeyFor, h]
  · intro ke h1 h2
    simp [entryKeyFor, h1, h2]
  · intro ke h1 h2
    simp [entryKeyFor, h1, h2]
  · intro ke t h1 h2 h3
    simp [entryKeyFor, h1, h2, h3]

/-- Witness for C9 at concrete inputs: a rec-number text with
surrounding whitespace is kept verbatim, and an empty rec-number text
falls back to ref1. -/
theorem c9_recnumber_key_witness :
    (entryKeyFor c9Record 0 = "  42  ") ∧
    (entryKeyFor c9RecordEmpty 0 = "ref" ++ toString 1) := by
  refine ⟨?_, ?_⟩
  · exact (c9_recnumber_key c9Record 0).2.2.2 c9KeyElem ("  42  ") rfl rfl (by decide)
  · exact (c9_recnumber_key c9RecordEmpty 0).2.2.1 c9EmptyKeyElem rfl rfl

/-- Claim C10 (confirmed): an input that is neither a string nor a
parsed element makes the conversion return the empty string and exactly
one Invalid XML data type error, with no exception crossing the
boundary (the function is total). -/
theorem c10_invalid_type (parse : String → Except String Element) (flag : Bool)
    (xo : Element → Option String) (ro : Nat → Element → Option String) :
    convert_to_bibtex parse flag xo ro XmlData.invalid = ("", ["Invalid XML data type"]) := rfl
